import Mathlib

/-!
Verification of the `tensorflow-image-models` example repository.

The repository consists of one notebook, `notebooks/load_pretrained_timm.ipynb`,
which loads a pretrained `timm` (PyTorch) model, converts it to a `keras`
model via `tfimm.load_timm_model`, runs both models on a shared random input
(with an axis permutation from channel-first to channel-last), prints both
outputs, and saves the converted model; plus one CI workflow,
`.github/workflows/publish_test.yml`, which publishes a package to
test.pypi.org when manually dispatched.

We embed the notebook as a straight-line interpreter over an explicit state,
parameterised by a `Libs` oracle giving the behaviour (success value or
raised exception) of each external library call.  A raised exception halts
execution: every later step is skipped (Python notebook semantics).  The
CI workflow is embedded as declarative configuration data.
-/

namespace TFIMM

/-- A 4-dimensional tensor with the given axis extents, represented as a
function from indices to entries (entry type `α` is abstract: the claims are
about data movement, not float arithmetic). -/
def Tensor4 (d0 d1 d2 d3 : Nat) (α : Type) : Type :=
  Fin d0 → Fin d1 → Fin d2 → Fin d3 → α

/-- `x.permute(0,2,3,1)` from the notebook testing cell: output axis 0 is
input axis 0, output axis 1 is input axis 2, output axis 2 is input axis 3,
output axis 3 is input axis 1 (PyTorch `Tensor.permute` semantics), so the
entry at output index `(n, h, w, c)` is the input entry at `(n, c, h, w)`. -/
def permute0231 {d0 d1 d2 d3 : Nat} {α : Type} (x : Tensor4 d0 d1 d2 d3 α) :
    Tensor4 d0 d2 d3 d1 α :=
  fun n h w c => x n c h w

/-- Embeds `TIMM_MODEL_NAME` from notebook cell 4. -/
def TIMM_MODEL_NAME : String := "vit_tiny_patch16_224"

/-- `N_CLASSES = 5` (notebook cell 4). -/
def N_CLASSES : Nat := 5

/-- `IMG_DIM = 224` (notebook cell 4). -/
def IMG_DIM : Nat := 224

/-- An opaque external-library model object: an architecture name, an
output-class count and a parameter (weight) vector.  The internal structure
is owned by the external libraries; we only need a value with decidable
equality to track identity and mutation. -/
structure Model where
  arch : String
  outClasses : Nat
  weights : List Rat
deriving DecidableEq

/-- A model output (the result of a forward pass), abstract. -/
def Output : Type := List Rat

instance : DecidableEq Output := inferInstanceAs (DecidableEq (List Rat))

/-- Observable events of a notebook run, in execution order. -/
inductive Event where
  /-- `import <libName>` executed successfully. -/
  | importLib (libName : String)
  /-- `os.environ[key] = val`. -/
  | setEnvVar (key val : String)
  /-- `timm.create_model(model_name=…, num_classes=…, pretrained=…)`. -/
  | createModelCall (model_name : String) (num_classes : Nat) (pretrained : Bool)
  /-- `tfimm.load_timm_model(…, nb_classes=…, pt_model=…)`. -/
  | loadTimmModelCall (model_name : String) (nb_classes : Nat) (pt_model : Model)
  /-- `timm_model(sample_input)` (torch forward pass). -/
  | torchForward
  /-- `keras_model.predict(…)`. -/
  | kerasPredict
  /-- `print(out)`. -/
  | printOutput (out : Output)
  /-- `keras_model.save(filepath=…, save_format=…)` of the given model. -/
  | saveModel (filepath : String) (save_format : String) (model : Model)
deriving DecidableEq

/-- Behaviour of the external libraries (timm, tfimm, tensorflow, torch, os,
the Python runtime): for each call the oracle decides whether it raises and,
if not, what it returns.  The notebook authors none of this logic; every
claim is quantified over it. -/
structure Libs where
  /-- Whether `import <libName>` succeeds. -/
  importOk : String → Bool
  /-- Whether the `os.environ` assignment succeeds. -/
  setEnvOk : Bool
  /-- `timm.create_model(model_name, num_classes, pretrained)`. -/
  timmCreateModel : String → Nat → Bool → Except String Model
  /-- `tfimm.load_timm_model(model_name, nb_classes, pt_model)`. -/
  tfimmLoadTimmModel : String → Nat → Model → Except String Model
  /-- The random draw `torch.rand((2, 3, IMG_DIM, IMG_DIM))`. -/
  rand : Tensor4 2 3 IMG_DIM IMG_DIM Rat
  /-- The torch forward pass `timm_model(x)` (with `.detach().numpy()`). -/
  timmForward : Model → Tensor4 2 3 IMG_DIM IMG_DIM Rat → Except String Output
  /-- `keras_model.predict(x)` on a channel-last input. -/
  kerasPredictFn : Model → Tensor4 2 IMG_DIM IMG_DIM 3 Rat → Except String Output
  /-- Whether the first `print` call succeeds. -/
  printOk1 : Bool
  /-- Whether the second `print` call succeeds. -/
  printOk2 : Bool
  /-- `keras_model.save(filepath, save_format)`: `none` on success, an
  exception message on failure. -/
  saveResult : Model → String → String → Option String

/-- The notebook runtime state: local variable bindings, plus the observable
effects (environment-variable writes, stdout, file-system writes) and the
pending unhandled exception, if any. -/
structure NbState where
  /-- Environment-variable writes performed, in order. -/
  envWrites : List (String × String)
  /-- Observable events, in order. -/
  events : List Event
  /-- The `timm_model` binding. -/
  timm_model : Option Model
  /-- The `keras_model` binding. -/
  keras_model : Option Model
  /-- The `sample_input` binding. -/
  sample_input : Option (Tensor4 2 3 IMG_DIM IMG_DIM Rat)
  /-- The tensor actually passed to `keras_model.predict` (the permuted
  sample), recorded for the layout claims. -/
  keras_input : Option (Tensor4 2 IMG_DIM IMG_DIM 3 Rat)
  /-- The `torch_output` binding. -/
  torch_output : Option Output
  /-- The `keras_output` binding. -/
  keras_output : Option Output
  /-- Values printed to stdout, in order. -/
  printed : List Output
  /-- File-system writes: `(filepath, save_format, model saved)`. -/
  fileWrites : List (String × String × Model)
  /-- `some msg` once an exception has propagated to the notebook runtime. -/
  haltedAt : Option String

/-- The state before the first cell runs: no bindings, no effects. -/
def initState : NbState where
  envWrites := []
  events := []
  timm_model := none
  keras_model := none
  sample_input := none
  keras_input := none
  torch_output := none
  keras_output := none
  printed := []
  fileWrites := []
  haltedAt := none

/-- Sequencing with unhandled-exception propagation: once halted, every
later operation is skipped (the notebook has no catch/retry/recovery). -/
def andThen (s : NbState) (f : NbState → NbState) : NbState :=
  if s.haltedAt.isSome then s else f s

/-- `import <libName>` (notebook cell 2). -/
def stepImport (L : Libs) (libName : String) (s : NbState) : NbState :=
  if L.importOk libName then
    { s with events := s.events ++ [.importLib libName] }
  else
    { s with haltedAt := some ("ImportError: " ++ libName) }

/-- Embeds the assignment of the environment key TF_CPP_MIN_LOG_LEVEL to
the string "3" via `os.environ` (notebook cell 2). -/
def stepSetEnv (L : Libs) (s : NbState) : NbState :=
  if L.setEnvOk then
    { s with envWrites := s.envWrites ++ [("TF_CPP_MIN_LOG_LEVEL", "3")],
             events := s.events ++ [.setEnvVar "TF_CPP_MIN_LOG_LEVEL" "3"] }
  else
    { s with haltedAt := some "os.environ assignment failed" }

/-- `timm_model = timm.create_model(model_name=TIMM_MODEL_NAME,
num_classes=N_CLASSES, pretrained=True)` (notebook cell 6). -/
def stepCreateModel (L : Libs) (s : NbState) : NbState :=
  match L.timmCreateModel TIMM_MODEL_NAME N_CLASSES true with
  | .ok m =>
      { s with timm_model := some m,
               events := s.events ++ [.createModelCall TIMM_MODEL_NAME N_CLASSES true] }
  | .error e => { s with haltedAt := some e }

/-- `keras_model = tfimm.load_timm_model(TIMM_MODEL_NAME, nb_classes=N_CLASSES,
pt_model=timm_model)` (notebook cell 8). -/
def stepConvert (L : Libs) (s : NbState) : NbState :=
  match s.timm_model with
  | none => { s with haltedAt := some "NameError: timm_model" }
  | some tm =>
    match L.tfimmLoadTimmModel TIMM_MODEL_NAME N_CLASSES tm with
    | .ok km =>
        { s with keras_model := some km,
                 events := s.events ++ [.loadTimmModelCall TIMM_MODEL_NAME N_CLASSES tm] }
    | .error e => { s with haltedAt := some e }

/-- Notebook cell 10 (testing):
`sample_input = torch.rand((2,3,IMG_DIM,IMG_DIM))`,
`torch_output = timm_model(sample_input).detach().numpy()`,
`keras_output = keras_model.predict(sample_input.permute(0,2,3,1).numpy())`. -/
def stepTesting (L : Libs) (s : NbState) : NbState :=
  let sample := L.rand
  let s1 := { s with sample_input := some sample }
  match s1.timm_model with
  | none => { s1 with haltedAt := some "NameError: timm_model" }
  | some tm =>
    match L.timmForward tm sample with
    | .error e => { s1 with haltedAt := some e }
    | .ok tout =>
      let s2 := { s1 with torch_output := some tout,
                          events := s1.events ++ [Event.torchForward] }
      match s2.keras_model with
      | none => { s2 with haltedAt := some "NameError: keras_model" }
      | some km =>
        let kin := permute0231 sample
        let s3 := { s2 with keras_input := some kin }
        match L.kerasPredictFn km kin with
        | .error e => { s3 with haltedAt := some e }
        | .ok kout =>
            { s3 with keras_output := some kout,
                      events := s3.events ++ [Event.kerasPredict] }

/-- Notebook cell 11: `print(torch_output)` then `print(keras_output)`. -/
def stepPrint (L : Libs) (s : NbState) : NbState :=
  match s.torch_output with
  | none => { s with haltedAt := some "NameError: torch_output" }
  | some tout =>
    if L.printOk1 then
      let s1 := { s with printed := s.printed ++ [tout],
                         events := s.events ++ [Event.printOutput tout] }
      match s1.keras_output with
      | none => { s1 with haltedAt := some "NameError: keras_output" }
      | some kout =>
        if L.printOk2 then
          { s1 with printed := s1.printed ++ [kout],
                    events := s1.events ++ [Event.printOutput kout] }
        else { s1 with haltedAt := some "print failed" }
    else { s with haltedAt := some "print failed" }

/-- Notebook cell 13:
`keras_model.save` with the f-string filepath `keras_` + model name and
save_format "tf". -/
def stepSave (L : Libs) (s : NbState) : NbState :=
  match s.keras_model with
  | none => { s with haltedAt := some "NameError: keras_model" }
  | some km =>
    let path := "keras_" ++ TIMM_MODEL_NAME
    match L.saveResult km path "tf" with
    | some e => { s with haltedAt := some e }
    | none =>
        { s with fileWrites := s.fileWrites ++ [(path, "tf", km)],
                 events := s.events ++ [Event.saveModel path "tf" km] }

/-- The notebook operations in source order (cells 2, 4, 6, 8, 10, 11, 13;
cell 4 only binds the constants `TIMM_MODEL_NAME`, `N_CLASSES`, `IMG_DIM`,
embedded above as definitions). -/
def notebookSteps (L : Libs) : List (NbState → NbState) :=
  [stepImport L "os", stepSetEnv L,
   stepImport L "timm", stepImport L "tfimm",
   stepImport L "tensorflow", stepImport L "torch",
   stepCreateModel L, stepConvert L,
   stepTesting L, stepPrint L, stepSave L]

/-- The whole notebook, executed top to bottom with unhandled-exception
propagation between consecutive operations. -/
def runNotebook (L : Libs) : NbState :=
  (notebookSteps L).foldl andThen initState

/-- The list of events of a fully successful run, given the values returned
by the four model-level library calls. -/
def successEvents (tm km : Model) (tout kout : Output) : List Event :=
  [Event.importLib "os", Event.setEnvVar "TF_CPP_MIN_LOG_LEVEL" "3",
   Event.importLib "timm", Event.importLib "tfimm",
   Event.importLib "tensorflow", Event.importLib "torch",
   Event.createModelCall TIMM_MODEL_NAME N_CLASSES true,
   Event.loadTimmModelCall TIMM_MODEL_NAME N_CLASSES tm,
   Event.torchForward, Event.kerasPredict,
   Event.printOutput tout, Event.printOutput kout,
   Event.saveModel ("keras_" ++ TIMM_MODEL_NAME) "tf" km]

/-! ### Final states of the 14 possible runs

The notebook has 13 fallible call sites.  A run either fails at the first
failing site (all later operations skipped) or succeeds throughout.  The
following definitions name the final state of each kind of run. -/

/-- The single environment-variable write performed by the notebook. -/
def envPair : List (String × String) := [("TF_CPP_MIN_LOG_LEVEL", "3")]

/-- Final state when the initial module import raises. -/
def haltImportOs : NbState :=
  { initState with haltedAt := some "ImportError: os" }

/-- Final state when the environment-variable assignment raises. -/
def haltSetEnv : NbState :=
  { initState with
      events := [Event.importLib "os"],
      haltedAt := some "os.environ assignment failed" }

/-- Final state when the timm module import raises. -/
def haltImportTimm : NbState :=
  { initState with
      envWrites := envPair,
      events := [Event.importLib "os", Event.setEnvVar "TF_CPP_MIN_LOG_LEVEL" "3"],
      haltedAt := some "ImportError: timm" }

/-- Final state when the tfimm module import raises. -/
def haltImportTfimm : NbState :=
  { initState with
      envWrites := envPair,
      events := [Event.importLib "os", Event.setEnvVar "TF_CPP_MIN_LOG_LEVEL" "3",
        Event.importLib "timm"],
      haltedAt := some "ImportError: tfimm" }

/-- Final state when the tensorflow module import raises. -/
def haltImportTensorflow : NbState :=
  { initState with
      envWrites := envPair,
      events := [Event.importLib "os", Event.setEnvVar "TF_CPP_MIN_LOG_LEVEL" "3",
        Event.importLib "timm", Event.importLib "tfimm"],
      haltedAt := some "ImportError: tensorflow" }

/-- Final state when the torch module import raises. -/
def haltImportTorch : NbState :=
  { initState with
      envWrites := envPair,
      events := [Event.importLib "os", Event.setEnvVar "TF_CPP_MIN_LOG_LEVEL" "3",
        Event.importLib "timm", Event.importLib "tfimm", Event.importLib "tensorflow"],
      haltedAt := some "ImportError: torch" }

/-- Final state when `timm.create_model` raises with message `e`. -/
def haltCreate (e : String) : NbState :=
  { initState with
      envWrites := envPair,
      events := [Event.importLib "os", Event.setEnvVar "TF_CPP_MIN_LOG_LEVEL" "3",
        Event.importLib "timm", Event.importLib "tfimm", Event.importLib "tensorflow",
        Event.importLib "torch"],
      haltedAt := some e }

/-- Final state when `tfimm.load_timm_model` raises with message `e`, after
`timm.create_model` returned `tm`. -/
def haltConvert (tm : Model) (e : String) : NbState :=
  { initState with
      envWrites := envPair,
      events := [Event.importLib "os", Event.setEnvVar "TF_CPP_MIN_LOG_LEVEL" "3",
        Event.importLib "timm", Event.importLib "tfimm", Event.importLib "tensorflow",
        Event.importLib "torch", Event.createModelCall TIMM_MODEL_NAME N_CLASSES true],
      timm_model := some tm,
      haltedAt := some e }

/-- Final state when the torch forward pass raises with message `e`. -/
def haltForward (sample : Tensor4 2 3 IMG_DIM IMG_DIM Rat) (tm km : Model)
    (e : String) : NbState :=
  { initState with
      envWrites := envPair,
      events := [Event.importLib "os", Event.setEnvVar "TF_CPP_MIN_LOG_LEVEL" "3",
        Event.importLib "timm", Event.importLib "tfimm", Event.importLib "tensorflow",
        Event.importLib "torch", Event.createModelCall TIMM_MODEL_NAME N_CLASSES true,
        Event.loadTimmModelCall TIMM_MODEL_NAME N_CLASSES tm],
      timm_model := some tm,
      keras_model := some km,
      sample_input := some sample,
      haltedAt := some e }

/-- Final state when `keras_model.predict` raises with message `e`. -/
def haltPredict (sample : Tensor4 2 3 IMG_DIM IMG_DIM Rat) (tm km : Model)
    (tout : Output) (e : String) : NbState :=
  { initState with
      envWrites := envPair,
      events := [Event.importLib "os", Event.setEnvVar "TF_CPP_MIN_LOG_LEVEL" "3",
        Event.importLib "timm", Event.importLib "tfimm", Event.importLib "tensorflow",
        Event.importLib "torch", Event.createModelCall TIMM_MODEL_NAME N_CLASSES true,
        Event.loadTimmModelCall TIMM_MODEL_NAME N_CLASSES tm, Event.torchForward],
      timm_model := some tm,
      keras_model := some km,
      sample_input := some sample,
      keras_input := some (permute0231 sample),
      torch_output := some tout,
      haltedAt := some e }

/-- Final state when the first `print` call raises. -/
def haltPrint1 (sample : Tensor4 2 3 IMG_DIM IMG_DIM Rat) (tm km : Model)
    (tout kout : Output) : NbState :=
  { initState with
      envWrites := envPair,
      events := [Event.importLib "os", Event.setEnvVar "TF_CPP_MIN_LOG_LEVEL" "3",
        Event.importLib "timm", Event.importLib "tfimm", Event.importLib "tensorflow",
        Event.importLib "torch", Event.createModelCall TIMM_MODEL_NAME N_CLASSES true,
        Event.loadTimmModelCall TIMM_MODEL_NAME N_CLASSES tm, Event.torchForward,
        Event.kerasPredict],
      timm_model := some tm,
      keras_model := some km,
      sample_input := some sample,
      keras_input := some (permute0231 sample),
      torch_output := some tout,
      keras_output := some kout,
      haltedAt := some "print failed" }

/-- Final state when the second `print` call raises. -/
def haltPrint2 (sample : Tensor4 2 3 IMG_DIM IMG_DIM Rat) (tm km : Model)
    (tout kout : Output) : NbState :=
  { initState with
      envWrites := envPair,
      events := [Event.importLib "os", Event.setEnvVar "TF_CPP_MIN_LOG_LEVEL" "3",
        Event.importLib "timm", Event.importLib "tfimm", Event.importLib "tensorflow",
        Event.importLib "torch", Event.createModelCall TIMM_MODEL_NAME N_CLASSES true,
        Event.loadTimmModelCall TIMM_MODEL_NAME N_CLASSES tm, Event.torchForward,
        Event.kerasPredict, Event.printOutput tout],
      timm_model := some tm,
      keras_model := some km,
      sample_input := some sample,
      keras_input := some (permute0231 sample),
      torch_output := some tout,
      keras_output := some kout,
      printed := [tout],
      haltedAt := some "print failed" }

/-- Final state when `keras_model.save` raises with message `e`. -/
def haltSave (sample : Tensor4 2 3 IMG_DIM IMG_DIM Rat) (tm km : Model)
    (tout kout : Output) (e : String) : NbState :=
  { initState with
      envWrites := envPair,
      events := [Event.importLib "os", Event.setEnvVar "TF_CPP_MIN_LOG_LEVEL" "3",
        Event.importLib "timm", Event.importLib "tfimm", Event.importLib "tensorflow",
        Event.importLib "torch", Event.createModelCall TIMM_MODEL_NAME N_CLASSES true,
        Event.loadTimmModelCall TIMM_MODEL_NAME N_CLASSES tm, Event.torchForward,
        Event.kerasPredict, Event.printOutput tout, Event.printOutput kout],
      timm_model := some tm,
      keras_model := some km,
      sample_input := some sample,
      keras_input := some (permute0231 sample),
      torch_output := some tout,
      keras_output := some kout,
      printed := [tout, kout],
      haltedAt := some e }

/-- Final state of a fully successful run. -/
def successState (sample : Tensor4 2 3 IMG_DIM IMG_DIM Rat) (tm km : Model)
    (tout kout : Output) : NbState :=
  { envWrites := envPair,
    events := successEvents tm km tout kout,
    timm_model := some tm,
    keras_model := some km,
    sample_input := some sample,
    keras_input := some (permute0231 sample),
    torch_output := some tout,
    keras_output := some kout,
    printed := [tout, kout],
    fileWrites := [("keras_" ++ TIMM_MODEL_NAME, "tf", km)],
    haltedAt := none }

/-- Erase printed payloads, keeping only which operation an event records
(used to state that the output values influence nothing but stdout). -/
def eraseOutput : Event → Event
  | Event.printOutput _ => Event.printOutput []
  | e => e

/-! ### A concrete library transcript (for instantiating theorems) -/

/-- The model returned by `timm.create_model` in the concrete transcript. -/
def demoTimmModel : Model where
  arch := TIMM_MODEL_NAME
  outClasses := N_CLASSES
  weights := [1, 2, 3]

/-- The model returned by `tfimm.load_timm_model` in the concrete transcript. -/
def demoKerasModel : Model where
  arch := TIMM_MODEL_NAME
  outClasses := N_CLASSES
  weights := [1, 2, 3]

/-- A concrete transcript of library behaviour in which every call succeeds. -/
def demoLibs : Libs where
  importOk := fun _ => true
  setEnvOk := true
  timmCreateModel := fun nm n _ => Except.ok { arch := nm, outClasses := n, weights := [1, 2, 3] }
  tfimmLoadTimmModel := fun nm n m => Except.ok { arch := nm, outClasses := n, weights := m.weights }
  rand := fun n c h w => ((n.val + 3 * c.val + 9 * h.val + 17 * w.val : Nat) : Rat)
  timmForward := fun _ _ => Except.ok [1, 2]
  kerasPredictFn := fun _ _ => Except.ok [3, 4]
  printOk1 := true
  printOk2 := true
  saveResult := fun _ _ _ => none

/-- A transcript identical to `demoLibs` except that the conversion call
raises. -/
def demoLibsFailConvert : Libs :=
  { demoLibs with tfimmLoadTimmModel := fun _ _ _ => Except.error "conversion failed" }

/-- The transcript `L` with the two model outputs replaced by given values
(both inference calls succeeding), used to state that the output values
influence nothing but what is printed. -/
def outputsOracle (L : Libs) (t k : Output) : Libs :=
  { L with timmForward := fun _ _ => Except.ok t,
           kerasPredictFn := fun _ _ => Except.ok k }

/-! ### Embedding of .github/workflows/publish_test.yml -/

/-- GitHub Actions trigger kinds relevant to the publish workflow. -/
inductive TriggerEvent where
  | workflow_dispatch
  | push
  | pull_request
  | schedule
deriving DecidableEq

/-- A poetry repository configuration, as produced by
`poetry config repositories.<name> <url>`. -/
structure RepoConfig where
  rcName : String
  rcUrl : String
deriving DecidableEq

/-- The effect of the Publish package step: the repositories it configures
and the `-r` argument of `poetry publish` (none means poetry uploads to the
default production registry). -/
structure PublishStep where
  configuredRepos : List RepoConfig
  publishRepoArg : Option String
deriving DecidableEq

/-- A GitHub Actions workflow, restricted to the observable facts the
publish workflow states: its name, its triggers, its step names, and what
its publish step does. -/
structure Workflow where
  wfName : String
  onTriggers : List TriggerEvent
  jobSteps : List String
  publishStep : PublishStep
deriving DecidableEq

/-- Embedding of the publish_test.yml workflow: name, the single
`workflow_dispatch` trigger, the job steps in order, and the publish step
running `poetry config repositories.test-pypi https://test.pypi.org/legacy/`
followed by `poetry build` and `poetry publish -r test-pypi`. -/
def publish_test_workflow : Workflow where
  wfName := "Publish to test.pypi.org"
  onTriggers := [TriggerEvent.workflow_dispatch]
  jobSteps := ["actions/checkout@v2", "Set up Python", "Install poetry",
    "Cache poetry environment", "Set Poetry config", "Install Dependencies",
    "Publish package"]
  publishStep :=
    { configuredRepos := [{ rcName := "test-pypi", rcUrl := "https://test.pypi.org/legacy/" }],
      publishRepoArg := some "test-pypi" }

/-- The production registry upload URL (the poetry default when no `-r`
argument is given). -/
def productionRegistryUrl : String := "https://upload.pypi.org/legacy/"

/-- The URL `poetry publish` uploads to: the configured URL of the
repository named by the `-r` argument, or the production registry when no
`-r` argument is given. -/
def uploadUrl (w : Workflow) : Option String :=
  match w.publishStep.publishRepoArg with
  | none => some productionRegistryUrl
  | some r => (w.publishStep.configuredRepos.find? (fun c => c.rcName == r)).map RepoConfig.rcUrl

/-! ### Generic lemmas about the sequencing combinator -/

/-- Once an exception has propagated, no later operation changes the state. -/
theorem foldl_andThen_halted (fs : List (NbState → NbState)) (s : NbState)
    (hs : s.haltedAt.isSome) : fs.foldl andThen s = s := by
  induction fs with
  | nil => rfl
  | cons f fs ih =>
      have h1 : andThen s f = s := by unfold andThen; simp [hs]
      simp [List.foldl, h1, ih]

/-- An invariant preserved by every operation in a list is preserved by the
guarded sequence of the list. -/
theorem foldl_andThen_inv (Q : NbState → Prop) (fs : List (NbState → NbState))
    (hfs : ∀ f ∈ fs, ∀ s, Q s → Q (f s)) (s : NbState) (hs : Q s) :
    Q (fs.foldl andThen s) := by
  induction fs generalizing s with
  | nil => exact hs
  | cons f fs ih =>
      refine ih (fun g hg t ht => hfs g (List.mem_cons_of_mem f hg) t ht) _ ?_
      unfold andThen
      split
      · exact hs
      · exact hfs f (List.mem_cons_self f fs) s hs

/-- Characterisation of a fully successful run: every external call succeeds,
with the stated results, and the final state is completely determined. -/
theorem run_success (L : Libs) (tm km : Model) (tout kout : Output)
    (h1 : L.importOk "os" = true) (h2 : L.setEnvOk = true)
    (h3 : L.importOk "timm" = true) (h4 : L.importOk "tfimm" = true)
    (h5 : L.importOk "tensorflow" = true) (h6 : L.importOk "torch" = true)
    (h7 : L.timmCreateModel TIMM_MODEL_NAME N_CLASSES true = .ok tm)
    (h8 : L.tfimmLoadTimmModel TIMM_MODEL_NAME N_CLASSES tm = .ok km)
    (h9 : L.timmForward tm L.rand = .ok tout)
    (h10 : L.kerasPredictFn km (permute0231 L.rand) = .ok kout)
    (h11 : L.printOk1 = true) (h12 : L.printOk2 = true)
    (h13 : L.saveResult km ("keras_" ++ TIMM_MODEL_NAME) "tf" = none) :
    runNotebook L = successState L.rand tm km tout kout := by
  simp [runNotebook, notebookSteps, List.foldl, andThen, stepImport, stepSetEnv,
        stepCreateModel, stepConvert, stepTesting, stepPrint, stepSave, initState,
        successEvents, successState, envPair,
        h1, h2, h3, h4, h5, h6, h7, h8, h9, h10, h11, h12, h13]

/-! ### Characterisations of the 13 halting runs -/

/-- A run that fails at the initial module import. -/
theorem run_halt_import_os (L : Libs) (h1 : L.importOk "os" = false) :
    runNotebook L = haltImportOs := by
  simp [runNotebook, notebookSteps, List.foldl, andThen, stepImport, stepSetEnv,
        stepCreateModel, stepConvert, stepTesting, stepPrint, stepSave, initState,
        haltImportOs, envPair, h1]

/-- A run that fails at the environment-variable assignment. -/
theorem run_halt_setenv (L : Libs) (h1 : L.importOk "os" = true)
    (h2 : L.setEnvOk = false) :
    runNotebook L = haltSetEnv := by
  simp [runNotebook, notebookSteps, List.foldl, andThen, stepImport, stepSetEnv,
        stepCreateModel, stepConvert, stepTesting, stepPrint, stepSave, initState,
        haltSetEnv, envPair, h1, h2]

/-- A run that fails at the timm import. -/
theorem run_halt_import_timm (L : Libs) (h1 : L.importOk "os" = true)
    (h2 : L.setEnvOk = true) (h3 : L.importOk "timm" = false) :
    runNotebook L = haltImportTimm := by
  simp [runNotebook, notebookSteps, List.foldl, andThen, stepImport, stepSetEnv,
        stepCreateModel, stepConvert, stepTesting, stepPrint, stepSave, initState,
        haltImportTimm, envPair, h1, h2, h3]

/-- A run that fails at the tfimm import. -/
theorem run_halt_import_tfimm (L : Libs) (h1 : L.importOk "os" = true)
    (h2 : L.setEnvOk = true) (h3 : L.importOk "timm" = true)
    (h4 : L.importOk "tfimm" = false) :
    runNotebook L = haltImportTfimm := by
  simp [runNotebook, notebookSteps, List.foldl, andThen, stepImport, stepSetEnv,
        stepCreateModel, stepConvert, stepTesting, stepPrint, stepSave, initState,
        haltImportTfimm, envPair, h1, h2, h3, h4]

/-- A run that fails at the tensorflow import. -/
theorem run_halt_import_tensorflow (L : Libs) (h1 : L.importOk "os" = true)
    (h2 : L.setEnvOk = true) (h3 : L.importOk "timm" = true)
    (h4 : L.importOk "tfimm" = true) (h5 : L.importOk "tensorflow" = false) :
    runNotebook L = haltImportTensorflow := by
  simp [runNotebook, notebookSteps, List.foldl, andThen, stepImport, stepSetEnv,
        stepCreateModel, stepConvert, stepTesting, stepPrint, stepSave, initState,
        haltImportTensorflow, envPair, h1, h2, h3, h4, h5]

/-- A run that fails at the torch import. -/
theorem run_halt_import_torch (L : Libs) (h1 : L.importOk "os" = true)
    (h2 : L.setEnvOk = true) (h3 : L.importOk "timm" = true)
    (h4 : L.importOk "tfimm" = true) (h5 : L.importOk "tensorflow" = true)
    (h6 : L.importOk "torch" = false) :
    runNotebook L = haltImportTorch := by
  simp [runNotebook, notebookSteps, List.foldl, andThen, stepImport, stepSetEnv,
        stepCreateModel, stepConvert, stepTesting, stepPrint, stepSave, initState,
        haltImportTorch, envPair, h1, h2, h3, h4, h5, h6]

/-- A run in which `timm.create_model` raises. -/
theorem run_halt_create (L : Libs) (e : String) (h1 : L.importOk "os" = true)
    (h2 : L.setEnvOk = true) (h3 : L.importOk "timm" = true)
    (h4 : L.importOk "tfimm" = true) (h5 : L.importOk "tensorflow" = true)
    (h6 : L.importOk "torch" = true)
    (h7 : L.timmCreateModel TIMM_MODEL_NAME N_CLASSES true = .error e) :
    runNotebook L = haltCreate e := by
  simp [runNotebook, notebookSteps, List.foldl, andThen, stepImport, stepSetEnv,
        stepCreateModel, stepConvert, stepTesting, stepPrint, stepSave, initState,
        haltCreate, envPair, h1, h2, h3, h4, h5, h6, h7]

/-- A run in which `tfimm.load_timm_model` raises. -/
theorem run_halt_convert (L : Libs) (tm : Model) (e : String)
    (h1 : L.importOk "os" = true) (h2 : L.setEnvOk = true)
    (h3 : L.importOk "timm" = true) (h4 : L.importOk "tfimm" = true)
    (h5 : L.importOk "tensorflow" = true) (h6 : L.importOk "torch" = true)
    (h7 : L.timmCreateModel TIMM_MODEL_NAME N_CLASSES true = .ok tm)
    (h8 : L.tfimmLoadTimmModel TIMM_MODEL_NAME N_CLASSES tm = .error e) :
    runNotebook L = haltConvert tm e := by
  simp [runNotebook, notebookSteps, List.foldl, andThen, stepImport, stepSetEnv,
        stepCreateModel, stepConvert, stepTesting, stepPrint, stepSave, initState,
        haltConvert, envPair, h1, h2, h3, h4, h5, h6, h7, h8]

/-- A run in which the torch forward pass raises. -/
theorem run_halt_forward (L : Libs) (tm km : Model) (e : String)
    (h1 : L.importOk "os" = true) (h2 : L.setEnvOk = true)
    (h3 : L.importOk "timm" = true) (h4 : L.importOk "tfimm" = true)
    (h5 : L.importOk "tensorflow" = true) (h6 : L.importOk "torch" = true)
    (h7 : L.timmCreateModel TIMM_MODEL_NAME N_CLASSES true = .ok tm)
    (h8 : L.tfimmLoadTimmModel TIMM_MODEL_NAME N_CLASSES tm = .ok km)
    (h9 : L.timmForward tm L.rand = .error e) :
    runNotebook L = haltForward L.rand tm km e := by
  simp [runNotebook, notebookSteps, List.foldl, andThen, stepImport, stepSetEnv,
        stepCreateModel, stepConvert, stepTesting, stepPrint, stepSave, initState,
        haltForward, envPair, h1, h2, h3, h4, h5, h6, h7, h8, h9]

/-- A run in which `keras_model.predict` raises. -/
theorem run_halt_predict (L : Libs) (tm km : Model) (tout : Output) (e : String)
    (h1 : L.importOk "os" = true) (h2 : L.setEnvOk = true)
    (h3 : L.importOk "timm" = true) (h4 : L.importOk "tfimm" = true)
    (h5 : L.importOk "tensorflow" = true) (h6 : L.importOk "torch" = true)
    (h7 : L.timmCreateModel TIMM_MODEL_NAME N_CLASSES true = .ok tm)
    (h8 : L.tfimmLoadTimmModel TIMM_MODEL_NAME N_CLASSES tm = .ok km)
    (h9 : L.timmForward tm L.rand = .ok tout)
    (h10 : L.kerasPredictFn km (permute0231 L.rand) = .error e) :
    runNotebook L = haltPredict L.rand tm km tout e := by
  simp [runNotebook, notebookSteps, List.foldl, andThen, stepImport, stepSetEnv,
        stepCreateModel, stepConvert, stepTesting, stepPrint, stepSave, initState,
        haltPredict, envPair, h1, h2, h3, h4, h5, h6, h7, h8, h9, h10]

/-- A run in which the first `print` call raises. -/
theorem run_halt_print1 (L : Libs) (tm km : Model) (tout kout : Output)
    (h1 : L.importOk "os" = true) (h2 : L.setEnvOk = true)
    (h3 : L.importOk "timm" = true) (h4 : L.importOk "tfimm" = true)
    (h5 : L.importOk "tensorflow" = true) (h6 : L.importOk "torch" = true)
    (h7 : L.timmCreateModel TIMM_MODEL_NAME N_CLASSES true = .ok tm)
    (h8 : L.tfimmLoadTimmModel TIMM_MODEL_NAME N_CLASSES tm = .ok km)
    (h9 : L.timmForward tm L.rand = .ok tout)
    (h10 : L.kerasPredictFn km (permute0231 L.rand) = .ok kout)
    (h11 : L.printOk1 = false) :
    runNotebook L = haltPrint1 L.rand tm km tout kout := by
  simp [runNotebook, notebookSteps, List.foldl, andThen, stepImport, stepSetEnv,
        stepCreateModel, stepConvert, stepTesting, stepPrint, stepSave, initState,
        haltPrint1, envPair, h1, h2, h3, h4, h5, h6, h7, h8, h9, h10, h11]

/-- A run in which the second `print` call raises. -/
theorem run_halt_print2 (L : Libs) (tm km : Model) (tout kout : Output)
    (h1 : L.importOk "os" = true) (h2 : L.setEnvOk = true)
    (h3 : L.importOk "timm" = true) (h4 : L.importOk "tfimm" = true)
    (h5 : L.importOk "tensorflow" = true) (h6 : L.importOk "torch" = true)
    (h7 : L.timmCreateModel TIMM_MODEL_NAME N_CLASSES true = .ok tm)
    (h8 : L.tfimmLoadTimmModel TIMM_MODEL_NAME N_CLASSES tm = .ok km)
    (h9 : L.timmForward tm L.rand = .ok tout)
    (h10 : L.kerasPredictFn km (permute0231 L.rand) = .ok kout)
    (h11 : L.printOk1 = true) (h12 : L.printOk2 = false) :
    runNotebook L = haltPrint2 L.rand tm km tout kout := by
  simp [runNotebook, notebookSteps, List.foldl, andThen, stepImport, stepSetEnv,
        stepCreateModel, stepConvert, stepTesting, stepPrint, stepSave, initState,
        haltPrint2, envPair, h1, h2, h3, h4, h5, h6, h7, h8, h9, h10, h11, h12]

/-- A run in which `keras_model.save` raises. -/
theorem run_halt_save (L : Libs) (tm km : Model) (tout kout : Output) (e : String)
    (h1 : L.importOk "os" = true) (h2 : L.setEnvOk = true)
    (h3 : L.importOk "timm" = true) (h4 : L.importOk "tfimm" = true)
    (h5 : L.importOk "tensorflow" = true) (h6 : L.importOk "torch" = true)
    (h7 : L.timmCreateModel TIMM_MODEL_NAME N_CLASSES true = .ok tm)
    (h8 : L.tfimmLoadTimmModel TIMM_MODEL_NAME N_CLASSES tm = .ok km)
    (h9 : L.timmForward tm L.rand = .ok tout)
    (h10 : L.kerasPredictFn km (permute0231 L.rand) = .ok kout)
    (h11 : L.printOk1 = true) (h12 : L.printOk2 = true)
    (h13 : L.saveResult km ("keras_" ++ TIMM_MODEL_NAME) "tf" = some e) :
    runNotebook L = haltSave L.rand tm km tout kout e := by
  simp [runNotebook, notebookSteps, List.foldl, andThen, stepImport, stepSetEnv,
        stepCreateModel, stepConvert, stepTesting, stepPrint, stepSave, initState,
        haltSave, envPair, h1, h2, h3, h4, h5, h6, h7, h8, h9, h10, h11, h12, h13]

/-- Every run of the notebook is exactly one of the 14 characterised runs:
it halts at its first failing external call, or succeeds throughout. -/
theorem run_total (L : Libs) :
    (L.importOk "os" = false ∧ runNotebook L = haltImportOs) ∨
    (L.setEnvOk = false ∧ runNotebook L = haltSetEnv) ∨
    (L.importOk "timm" = false ∧ runNotebook L = haltImportTimm) ∨
    (L.importOk "tfimm" = false ∧ runNotebook L = haltImportTfimm) ∨
    (L.importOk "tensorflow" = false ∧ runNotebook L = haltImportTensorflow) ∨
    (L.importOk "torch" = false ∧ runNotebook L = haltImportTorch) ∨
    (∃ e, L.timmCreateModel TIMM_MODEL_NAME N_CLASSES true = Except.error e ∧
      runNotebook L = haltCreate e) ∨
    (∃ tm e, L.timmCreateModel TIMM_MODEL_NAME N_CLASSES true = Except.ok tm ∧
      runNotebook L = haltConvert tm e) ∨
    (∃ tm km e, L.timmCreateModel TIMM_MODEL_NAME N_CLASSES true = Except.ok tm ∧
      L.tfimmLoadTimmModel TIMM_MODEL_NAME N_CLASSES tm = Except.ok km ∧
      L.timmForward tm L.rand = Except.error e ∧
      runNotebook L = haltForward L.rand tm km e) ∨
    (∃ tm km tout e, L.timmCreateModel TIMM_MODEL_NAME N_CLASSES true = Except.ok tm ∧
      L.tfimmLoadTimmModel TIMM_MODEL_NAME N_CLASSES tm = Except.ok km ∧
      L.timmForward tm L.rand = Except.ok tout ∧
      L.kerasPredictFn km (permute0231 L.rand) = Except.error e ∧
      runNotebook L = haltPredict L.rand tm km tout e) ∨
    (∃ tm km tout kout, L.timmCreateModel TIMM_MODEL_NAME N_CLASSES true = Except.ok tm ∧
      L.tfimmLoadTimmModel TIMM_MODEL_NAME N_CLASSES tm = Except.ok km ∧
      L.timmForward tm L.rand = Except.ok tout ∧
      L.kerasPredictFn km (permute0231 L.rand) = Except.ok kout ∧
      L.printOk1 = false ∧
      runNotebook L = haltPrint1 L.rand tm km tout kout) ∨
    (∃ tm km tout kout, L.timmCreateModel TIMM_MODEL_NAME N_CLASSES true = Except.ok tm ∧
      L.tfimmLoadTimmModel TIMM_MODEL_NAME N_CLASSES tm = Except.ok km ∧
      L.timmForward tm L.rand = Except.ok tout ∧
      L.kerasPredictFn km (permute0231 L.rand) = Except.ok kout ∧
      L.printOk1 = true ∧ L.printOk2 = false ∧
      runNotebook L = haltPrint2 L.rand tm km tout kout) ∨
    (∃ tm km tout kout e, L.timmCreateModel TIMM_MODEL_NAME N_CLASSES true = Except.ok tm ∧
      L.tfimmLoadTimmModel TIMM_MODEL_NAME N_CLASSES tm = Except.ok km ∧
      L.timmForward tm L.rand = Except.ok tout ∧
      L.kerasPredictFn km (permute0231 L.rand) = Except.ok kout ∧
      L.saveResult km ("keras_" ++ TIMM_MODEL_NAME) "tf" = some e ∧
      runNotebook L = haltSave L.rand tm km tout kout e) ∨
    (∃ tm km tout kout, L.timmCreateModel TIMM_MODEL_NAME N_CLASSES true = Except.ok tm ∧
      L.tfimmLoadTimmModel TIMM_MODEL_NAME N_CLASSES tm = Except.ok km ∧
      L.timmForward tm L.rand = Except.ok tout ∧
      L.kerasPredictFn km (permute0231 L.rand) = Except.ok kout ∧
      runNotebook L = successState L.rand tm km tout kout) := by
  cases h1 : L.importOk "os" with
  | false => exact Or.inl ⟨rfl, run_halt_import_os L h1⟩
  | true =>
    cases h2 : L.setEnvOk with
    | false => exact Or.inr (Or.inl ⟨rfl, run_halt_setenv L h1 h2⟩)
    | true =>
      cases h3 : L.importOk "timm" with
      | false => exact Or.inr (Or.inr (Or.inl ⟨rfl, run_halt_import_timm L h1 h2 h3⟩))
      | true =>
        cases h4 : L.importOk "tfimm" with
        | false =>
            exact Or.inr (Or.inr (Or.inr (Or.inl ⟨rfl, run_halt_import_tfimm L h1 h2 h3 h4⟩)))
        | true =>
          cases h5 : L.importOk "tensorflow" with
          | false =>
              exact Or.inr (Or.inr (Or.inr (Or.inr (Or.inl
                ⟨rfl, run_halt_import_tensorflow L h1 h2 h3 h4 h5⟩))))
          | true =>
            cases h6 : L.importOk "torch" with
            | false =>
                exact Or.inr (Or.inr (Or.inr (Or.inr (Or.inr (Or.inl
                  ⟨rfl, run_halt_import_torch L h1 h2 h3 h4 h5 h6⟩)))))
            | true =>
              cases h7 : L.timmCreateModel TIMM_MODEL_NAME N_CLASSES true with
              | error e =>
                  exact Or.inr (Or.inr (Or.inr (Or.inr (Or.inr (Or.inr (Or.inl
                    ⟨e, rfl, run_halt_create L e h1 h2 h3 h4 h5 h6 h7⟩))))))
              | ok tm =>
                cases h8 : L.tfimmLoadTimmModel TIMM_MODEL_NAME N_CLASSES tm with
                | error e =>
                    exact Or.inr (Or.inr (Or.inr (Or.inr (Or.inr (Or.inr (Or.inr (Or.inl
                      ⟨tm, e, rfl, run_halt_convert L tm e h1 h2 h3 h4 h5 h6 h7 h8⟩)))))))
                | ok km =>
                  cases h9 : L.timmForward tm L.rand with
                  | error e =>
                      exact Or.inr (Or.inr (Or.inr (Or.inr (Or.inr (Or.inr (Or.inr (Or.inr
                        (Or.inl ⟨tm, km, e, rfl, h8, h9,
                          run_halt_forward L tm km e h1 h2 h3 h4 h5 h6 h7 h8 h9⟩))))))))
                  | ok tout =>
                    cases h10 : L.kerasPredictFn km (permute0231 L.rand) with
                    | error e =>
                        exact Or.inr (Or.inr (Or.inr (Or.inr (Or.inr (Or.inr (Or.inr (Or.inr
                          (Or.inr (Or.inl ⟨tm, km, tout, e, rfl, h8, h9, h10,
                            run_halt_predict L tm km tout e h1 h2 h3 h4 h5 h6 h7 h8 h9 h10⟩)))))))))
                    | ok kout =>
                      cases h11 : L.printOk1 with
                      | false =>
                          exact Or.inr (Or.inr (Or.inr (Or.inr (Or.inr (Or.inr (Or.inr (Or.inr
                            (Or.inr (Or.inr (Or.inl ⟨tm, km, tout, kout, rfl, h8, h9, h10, rfl,
                              run_halt_print1 L tm km tout kout
                                h1 h2 h3 h4 h5 h6 h7 h8 h9 h10 h11⟩))))))))))
                      | true =>
                        cases h12 : L.printOk2 with
                        | false =>
                            exact Or.inr (Or.inr (Or.inr (Or.inr (Or.inr (Or.inr (Or.inr (Or.inr
                              (Or.inr (Or.inr (Or.inr (Or.inl ⟨tm, km, tout, kout, rfl, h8, h9, h10, rfl, rfl,
                                run_halt_print2 L tm km tout kout
                                  h1 h2 h3 h4 h5 h6 h7 h8 h9 h10 h11 h12⟩)))))))))))
                        | true =>
                          cases h13 : L.saveResult km ("keras_" ++ TIMM_MODEL_NAME) "tf" with
                          | some e =>
                              exact Or.inr (Or.inr (Or.inr (Or.inr (Or.inr (Or.inr (Or.inr (Or.inr
                                (Or.inr (Or.inr (Or.inr (Or.inr (Or.inl
                                  ⟨tm, km, tout, kout, e, rfl, h8, h9, h10, h13,
                                    run_halt_save L tm km tout kout e
                                      h1 h2 h3 h4 h5 h6 h7 h8 h9 h10 h11 h12 h13⟩))))))))))))
                          | none =>
                              exact Or.inr (Or.inr (Or.inr (Or.inr (Or.inr (Or.inr (Or.inr (Or.inr
                                (Or.inr (Or.inr (Or.inr (Or.inr (Or.inr
                                  ⟨tm, km, tout, kout, rfl, h8, h9, h10,
                                    run_success L tm km tout kout
                                      h1 h2 h3 h4 h5 h6 h7 h8 h9 h10 h11 h12 h13⟩))))))))))))

/-! ### The claims -/

/-- Claim C1: in the testing step the tensor given to the keras model is
exactly the same random tensor given to the torch model with its axes
permuted by (0,2,3,1): whenever the keras input exists, the torch input is
the single shared draw `L.rand`, the keras input is its 0231-permutation,
and for every index (n,c,h,w) of the torch input the keras input holds the
same value at (n,h,w,c) — no element is changed. -/
theorem C1_keras_input_is_permuted_shared_draw (L : Libs)
    (ki : Tensor4 2 IMG_DIM IMG_DIM 3 Rat)
    (hki : (runNotebook L).keras_input = some ki) :
    (runNotebook L).sample_input = some L.rand ∧
    ki = permute0231 L.rand ∧
    ∀ (n : Fin 2) (c : Fin 3) (h : Fin IMG_DIM) (w : Fin IMG_DIM),
      ki n h w c = L.rand n c h w := by
  rcases run_total L with ⟨hc, h⟩ | ⟨hc, h⟩ | ⟨hc, h⟩ | ⟨hc, h⟩ | ⟨hc, h⟩ | ⟨hc, h⟩ |
    ⟨e, hc, h⟩ | ⟨tm, e, h7, h⟩ | ⟨tm, km, e, h7, h8, h9, h⟩ |
    ⟨tm, km, tout, e, h7, h8, h9, h10, h⟩ |
    ⟨tm, km, tout, kout, h7, h8, h9, h10, h11, h⟩ |
    ⟨tm, km, tout, kout, h7, h8, h9, h10, h11, h12, h⟩ |
    ⟨tm, km, tout, kout, e, h7, h8, h9, h10, h13, h⟩ |
    ⟨tm, km, tout, kout, h7, h8, h9, h10, h⟩
  · simp [h, haltImportOs, initState] at hki
  · simp [h, haltSetEnv, initState] at hki
  · simp [h, haltImportTimm, initState] at hki
  · simp [h, haltImportTfimm, initState] at hki
  · simp [h, haltImportTensorflow, initState] at hki
  · simp [h, haltImportTorch, initState] at hki
  · simp [h, haltCreate, initState] at hki
  · simp [h, haltConvert, initState] at hki
  · simp [h, haltForward, initState] at hki
  · rw [h] at hki ⊢
    simp only [haltPredict, initState, Option.some.injEq] at hki
    subst hki
    exact ⟨rfl, rfl, fun n c hh w => rfl⟩
  · rw [h] at hki ⊢
    simp only [haltPrint1, initState, Option.some.injEq] at hki
    subst hki
    exact ⟨rfl, rfl, fun n c hh w => rfl⟩
  · rw [h] at hki ⊢
    simp only [haltPrint2, initState, Option.some.injEq] at hki
    subst hki
    exact ⟨rfl, rfl, fun n c hh w => rfl⟩
  · rw [h] at hki ⊢
    simp only [haltSave, initState, Option.some.injEq] at hki
    subst hki
    exact ⟨rfl, rfl, fun n c hh w => rfl⟩
  · rw [h] at hki ⊢
    simp only [successState, Option.some.injEq] at hki
    subst hki
    exact ⟨rfl, rfl, fun n c hh w => rfl⟩

/-- Witness for C1 at the concrete transcript in which every call succeeds. -/
theorem C1_keras_input_is_permuted_shared_draw_witness :
    (runNotebook demoLibs).keras_input = some (permute0231 demoLibs.rand) ∧
    ((runNotebook demoLibs).sample_input = some demoLibs.rand ∧
     permute0231 demoLibs.rand = permute0231 demoLibs.rand ∧
     ∀ (n : Fin 2) (c : Fin 3) (h : Fin IMG_DIM) (w : Fin IMG_DIM),
       permute0231 demoLibs.rand n h w c = demoLibs.rand n c h w) :=
  ⟨rfl, C1_keras_input_is_permuted_shared_draw demoLibs (permute0231 demoLibs.rand) rfl⟩

/-- Claim C7: the program modifies exactly one process environment variable:
every environment write in any run sets TF_CPP_MIN_LOG_LEVEL to "3", and
once the assignment is reached and succeeds this single write is the whole
list of environment writes. -/
theorem C7_single_env_write (L : Libs) :
    (∀ kv ∈ (runNotebook L).envWrites, kv = ("TF_CPP_MIN_LOG_LEVEL", "3")) ∧
    (L.importOk "os" = true → L.setEnvOk = true →
      (runNotebook L).envWrites = [("TF_CPP_MIN_LOG_LEVEL", "3")]) := by
  constructor
  · rcases run_total L with ⟨hc, h⟩ | ⟨hc, h⟩ | ⟨hc, h⟩ | ⟨hc, h⟩ | ⟨hc, h⟩ | ⟨hc, h⟩ |
      ⟨e, hc, h⟩ | ⟨tm, e, h7, h⟩ | ⟨tm, km, e, h7, h8, h9, h⟩ |
      ⟨tm, km, tout, e, h7, h8, h9, h10, h⟩ |
      ⟨tm, km, tout, kout, h7, h8, h9, h10, h11, h⟩ |
      ⟨tm, km, tout, kout, h7, h8, h9, h10, h11, h12, h⟩ |
      ⟨tm, km, tout, kout, e, h7, h8, h9, h10, h13, h⟩ |
      ⟨tm, km, tout, kout, h7, h8, h9, h10, h⟩ <;>
      rw [h] <;>
      simp [haltImportOs, haltSetEnv, haltImportTimm, haltImportTfimm,
        haltImportTensorflow, haltImportTorch, haltCreate, haltConvert,
        haltForward, haltPredict, haltPrint1, haltPrint2, haltSave,
        successState, initState, envPair]
  · intro ho he
    rcases run_total L with ⟨hc, h⟩ | ⟨hc, h⟩ | ⟨hc, h⟩ | ⟨hc, h⟩ | ⟨hc, h⟩ | ⟨hc, h⟩ |
      ⟨e, hc, h⟩ | ⟨tm, e, h7, h⟩ | ⟨tm, km, e, h7, h8, h9, h⟩ |
      ⟨tm, km, tout, e, h7, h8, h9, h10, h⟩ |
      ⟨tm, km, tout, kout, h7, h8, h9, h10, h11, h⟩ |
      ⟨tm, km, tout, kout, h7, h8, h9, h10, h11, h12, h⟩ |
      ⟨tm, km, tout, kout, e, h7, h8, h9, h10, h13, h⟩ |
      ⟨tm, km, tout, kout, h7, h8, h9, h10, h⟩ <;>
      first
        | (rw [h]; rfl)
        | simp_all

/-- Witness for C7 at the concrete transcript in which every call succeeds. -/
theorem C7_single_env_write_witness :
    demoLibs.importOk "os" = true ∧ demoLibs.setEnvOk = true ∧
    (runNotebook demoLibs).envWrites = [("TF_CPP_MIN_LOG_LEVEL", "3")] :=
  ⟨rfl, rfl, (C7_single_env_write demoLibs).2 rfl rfl⟩

/-- Claim C4: the save step writes the converted keras model to the single
path "keras_" ++ TIMM_MODEL_NAME = "keras_vit_tiny_patch16_224" in the
native save format "tf", and no run performs any other file write. -/
theorem C4_save_path_and_format (L : Libs) :
    ((runNotebook L).fileWrites = [] ∨
      ∃ km, (runNotebook L).keras_model = some km ∧
        (runNotebook L).fileWrites = [("keras_" ++ TIMM_MODEL_NAME, "tf", km)]) ∧
    "keras_" ++ TIMM_MODEL_NAME = "keras_vit_tiny_patch16_224" := by
  refine ⟨?_, by decide⟩
  rcases run_total L with ⟨hc, h⟩ | ⟨hc, h⟩ | ⟨hc, h⟩ | ⟨hc, h⟩ | ⟨hc, h⟩ | ⟨hc, h⟩ |
    ⟨e, hc, h⟩ | ⟨tm, e, h7, h⟩ | ⟨tm, km, e, h7, h8, h9, h⟩ |
    ⟨tm, km, tout, e, h7, h8, h9, h10, h⟩ |
    ⟨tm, km, tout, kout, h7, h8, h9, h10, h11, h⟩ |
    ⟨tm, km, tout, kout, h7, h8, h9, h10, h11, h12, h⟩ |
    ⟨tm, km, tout, kout, e, h7, h8, h9, h10, h13, h⟩ |
    ⟨tm, km, tout, kout, h7, h8, h9, h10, h⟩ <;>
    first
      | exact Or.inl (by rw [h]; rfl)
      | exact Or.inr ⟨km, by rw [h]; rfl, by rw [h]; rfl⟩

/-- Claim C5: under a fully successful run the operations occur in a fixed
linear order with no branching: environment setup and imports, model
creation, conversion, torch inference, keras inference, the two prints, and
finally the save; the save event is the last event, after both inference
calls and both prints. -/
theorem C5_fixed_linear_order (L : Libs) (tm km : Model) (tout kout : Output)
    (h1 : L.importOk "os" = true) (h2 : L.setEnvOk = true)
    (h3 : L.importOk "timm" = true) (h4 : L.importOk "tfimm" = true)
    (h5 : L.importOk "tensorflow" = true) (h6 : L.importOk "torch" = true)
    (h7 : L.timmCreateModel TIMM_MODEL_NAME N_CLASSES true = Except.ok tm)
    (h8 : L.tfimmLoadTimmModel TIMM_MODEL_NAME N_CLASSES tm = Except.ok km)
    (h9 : L.timmForward tm L.rand = Except.ok tout)
    (h10 : L.kerasPredictFn km (permute0231 L.rand) = Except.ok kout)
    (h11 : L.printOk1 = true) (h12 : L.printOk2 = true)
    (h13 : L.saveResult km ("keras_" ++ TIMM_MODEL_NAME) "tf" = none) :
    (runNotebook L).events = successEvents tm km tout kout ∧
    successEvents tm km tout kout =
      [Event.importLib "os", Event.setEnvVar "TF_CPP_MIN_LOG_LEVEL" "3",
       Event.importLib "timm", Event.importLib "tfimm",
       Event.importLib "tensorflow", Event.importLib "torch",
       Event.createModelCall TIMM_MODEL_NAME N_CLASSES true,
       Event.loadTimmModelCall TIMM_MODEL_NAME N_CLASSES tm,
       Event.torchForward, Event.kerasPredict,
       Event.printOutput tout, Event.printOutput kout,
       Event.saveModel ("keras_" ++ TIMM_MODEL_NAME) "tf" km] ∧
    (runNotebook L).events.getLast? =
      some (Event.saveModel ("keras_" ++ TIMM_MODEL_NAME) "tf" km) := by
  rw [run_success L tm km tout kout h1 h2 h3 h4 h5 h6 h7 h8 h9 h10 h11 h12 h13]
  exact ⟨rfl, rfl, rfl⟩

/-- Witness for C5 at the concrete transcript in which every call succeeds. -/
theorem C5_fixed_linear_order_witness :
    (runNotebook demoLibs).events =
      successEvents demoTimmModel demoKerasModel [1, 2] [3, 4] ∧
    successEvents demoTimmModel demoKerasModel [1, 2] [3, 4] =
      [Event.importLib "os", Event.setEnvVar "TF_CPP_MIN_LOG_LEVEL" "3",
       Event.importLib "timm", Event.importLib "tfimm",
       Event.importLib "tensorflow", Event.importLib "torch",
       Event.createModelCall TIMM_MODEL_NAME N_CLASSES true,
       Event.loadTimmModelCall TIMM_MODEL_NAME N_CLASSES demoTimmModel,
       Event.torchForward, Event.kerasPredict,
       Event.printOutput [1, 2], Event.printOutput [3, 4],
       Event.saveModel ("keras_" ++ TIMM_MODEL_NAME) "tf" demoKerasModel] ∧
    (runNotebook demoLibs).events.getLast? =
      some (Event.saveModel ("keras_" ++ TIMM_MODEL_NAME) "tf" demoKerasModel) :=
  C5_fixed_linear_order demoLibs demoTimmModel demoKerasModel [1, 2] [3, 4]
    rfl rfl rfl rfl rfl rfl rfl rfl rfl rfl rfl rfl rfl

/-- Claim C8: the CI publish job is triggered by workflow_dispatch and by
nothing else (not push, pull request or schedule), and its publish step
uploads only to the test registry URL, never to the production registry. -/
theorem C8_publish_manual_and_test_registry_only :
    publish_test_workflow.onTriggers = [TriggerEvent.workflow_dispatch] ∧
    TriggerEvent.push ∉ publish_test_workflow.onTriggers ∧
    TriggerEvent.pull_request ∉ publish_test_workflow.onTriggers ∧
    TriggerEvent.schedule ∉ publish_test_workflow.onTriggers ∧
    uploadUrl publish_test_workflow = some "https://test.pypi.org/legacy/" ∧
    uploadUrl publish_test_workflow ≠ some productionRegistryUrl := by
  exact ⟨rfl, by decide, by decide, by decide, by decide, by decide⟩

/-- Claim C2: no error handling is implemented anywhere in the notebook: for
every library call in the sequence (environment setup and imports, model
creation, conversion, both inference calls, both prints, saving), if that
call raises then the exception propagates unhandled (the final state records
it in `haltedAt`) and the final state is exactly the state at the failing
cell, so no subsequent operation in the sequence runs; there is no catch,
retry, recovery or reporting branch. -/
theorem C2_no_error_handling (L : Libs) :
    (L.importOk "os" = false → runNotebook L = haltImportOs) ∧
    (L.importOk "os" = true → L.setEnvOk = false → runNotebook L = haltSetEnv) ∧
    (L.importOk "os" = true → L.setEnvOk = true → L.importOk "timm" = false →
      runNotebook L = haltImportTimm) ∧
    (L.importOk "os" = true → L.setEnvOk = true → L.importOk "timm" = true →
      L.importOk "tfimm" = false → runNotebook L = haltImportTfimm) ∧
    (L.importOk "os" = true → L.setEnvOk = true → L.importOk "timm" = true →
      L.importOk "tfimm" = true → L.importOk "tensorflow" = false →
      runNotebook L = haltImportTensorflow) ∧
    (L.importOk "os" = true → L.setEnvOk = true → L.importOk "timm" = true →
      L.importOk "tfimm" = true → L.importOk "tensorflow" = true →
      L.importOk "torch" = false → runNotebook L = haltImportTorch) ∧
    (∀ e, L.importOk "os" = true → L.setEnvOk = true → L.importOk "timm" = true →
      L.importOk "tfimm" = true → L.importOk "tensorflow" = true →
      L.importOk "torch" = true →
      L.timmCreateModel TIMM_MODEL_NAME N_CLASSES true = Except.error e →
      runNotebook L = haltCreate e) ∧
    (∀ tm e, L.importOk "os" = true → L.setEnvOk = true → L.importOk "timm" = true →
      L.importOk "tfimm" = true → L.importOk "tensorflow" = true →
      L.importOk "torch" = true →
      L.timmCreateModel TIMM_MODEL_NAME N_CLASSES true = Except.ok tm →
      L.tfimmLoadTimmModel TIMM_MODEL_NAME N_CLASSES tm = Except.error e →
      runNotebook L = haltConvert tm e) ∧
    (∀ tm km e, L.importOk "os" = true → L.setEnvOk = true → L.importOk "timm" = true →
      L.importOk "tfimm" = true → L.importOk "tensorflow" = true →
      L.importOk "torch" = true →
      L.timmCreateModel TIMM_MODEL_NAME N_CLASSES true = Except.ok tm →
      L.tfimmLoadTimmModel TIMM_MODEL_NAME N_CLASSES tm = Except.ok km →
      L.timmForward tm L.rand = Except.error e →
      runNotebook L = haltForward L.rand tm km e) ∧
    (∀ tm km tout e, L.importOk "os" = true → L.setEnvOk = true →
      L.importOk "timm" = true → L.importOk "tfimm" = true →
      L.importOk "tensorflow" = true → L.importOk "torch" = true →
      L.timmCreateModel TIMM_MODEL_NAME N_CLASSES true = Except.ok tm →
      L.tfimmLoadTimmModel TIMM_MODEL_NAME N_CLASSES tm = Except.ok km →
      L.timmForward tm L.rand = Except.ok tout →
      L.kerasPredictFn km (permute0231 L.rand) = Except.error e →
      runNotebook L = haltPredict L.rand tm km tout e) ∧
    (∀ tm km tout kout, L.importOk "os" = true → L.setEnvOk = true →
      L.importOk "timm" = true → L.importOk "tfimm" = true →
      L.importOk "tensorflow" = true → L.importOk "torch" = true →
      L.timmCreateModel TIMM_MODEL_NAME N_CLASSES true = Except.ok tm →
      L.tfimmLoadTimmModel TIMM_MODEL_NAME N_CLASSES tm = Except.ok km →
      L.timmForward tm L.rand = Except.ok tout →
      L.kerasPredictFn km (permute0231 L.rand) = Except.ok kout →
      L.printOk1 = false →
      runNotebook L = haltPrint1 L.rand tm km tout kout) ∧
    (∀ tm km tout kout, L.importOk "os" = true → L.setEnvOk = true →
      L.importOk "timm" = true → L.importOk "tfimm" = true →
      L.importOk "tensorflow" = true → L.importOk "torch" = true →
      L.timmCreateModel TIMM_MODEL_NAME N_CLASSES true = Except.ok tm →
      L.tfimmLoadTimmModel TIMM_MODEL_NAME N_CLASSES tm = Except.ok km →
      L.timmForward tm L.rand = Except.ok tout →
      L.kerasPredictFn km (permute0231 L.rand) = Except.ok kout →
      L.printOk1 = true → L.printOk2 = false →
      runNotebook L = haltPrint2 L.rand tm km tout kout) ∧
    (∀ tm km tout kout e, L.importOk "os" = true → L.setEnvOk = true →
      L.importOk "timm" = true → L.importOk "tfimm" = true →
      L.importOk "tensorflow" = true → L.importOk "torch" = true →
      L.timmCreateModel TIMM_MODEL_NAME N_CLASSES true = Except.ok tm →
      L.tfimmLoadTimmModel TIMM_MODEL_NAME N_CLASSES tm = Except.ok km →
      L.timmForward tm L.rand = Except.ok tout →
      L.kerasPredictFn km (permute0231 L.rand) = Except.ok kout →
      L.printOk1 = true → L.printOk2 = true →
      L.saveResult km ("keras_" ++ TIMM_MODEL_NAME) "tf" = some e →
      runNotebook L = haltSave L.rand tm km tout kout e) :=
  ⟨fun hf => run_halt_import_os L hf,
   fun h1 h2 => run_halt_setenv L h1 h2,
   fun h1 h2 h3 => run_halt_import_timm L h1 h2 h3,
   fun h1 h2 h3 h4 => run_halt_import_tfimm L h1 h2 h3 h4,
   fun h1 h2 h3 h4 h5 => run_halt_import_tensorflow L h1 h2 h3 h4 h5,
   fun h1 h2 h3 h4 h5 h6 => run_halt_import_torch L h1 h2 h3 h4 h5 h6,
   fun e h1 h2 h3 h4 h5 h6 h7 => run_halt_create L e h1 h2 h3 h4 h5 h6 h7,
   fun tm e h1 h2 h3 h4 h5 h6 h7 h8 =>
     run_halt_convert L tm e h1 h2 h3 h4 h5 h6 h7 h8,
   fun tm km e h1 h2 h3 h4 h5 h6 h7 h8 h9 =>
     run_halt_forward L tm km e h1 h2 h3 h4 h5 h6 h7 h8 h9,
   fun tm km tout e h1 h2 h3 h4 h5 h6 h7 h8 h9 h10 =>
     run_halt_predict L tm km tout e h1 h2 h3 h4 h5 h6 h7 h8 h9 h10,
   fun tm km tout kout h1 h2 h3 h4 h5 h6 h7 h8 h9 h10 h11 =>
     run_halt_print1 L tm km tout kout h1 h2 h3 h4 h5 h6 h7 h8 h9 h10 h11,
   fun tm km tout kout h1 h2 h3 h4 h5 h6 h7 h8 h9 h10 h11 h12 =>
     run_halt_print2 L tm km tout kout h1 h2 h3 h4 h5 h6 h7 h8 h9 h10 h11 h12,
   fun tm km tout kout e h1 h2 h3 h4 h5 h6 h7 h8 h9 h10 h11 h12 h13 =>
     run_halt_save L tm km tout kout e h1 h2 h3 h4 h5 h6 h7 h8 h9 h10 h11 h12 h13⟩

/-- Witness for C2 at a concrete transcript in which the conversion call
raises: the run halts there and performs no later operation. -/
theorem C2_no_error_handling_witness :
    runNotebook demoLibsFailConvert = haltConvert demoTimmModel "conversion failed" :=
  (C2_no_error_handling demoLibsFailConvert).2.2.2.2.2.2.2.1
    demoTimmModel "conversion failed" rfl rfl rfl rfl rfl rfl rfl rfl

/-- Claim C6: the create-pretrained-model call receives exactly the model
name "vit_tiny_patch16_224", the output-class count 5 and pretrained = true,
and the load/convert call receives the same model name, the same class
count, and as its source model exactly the instance returned by the create
call: every recorded call event in any run carries these arguments. -/
theorem C6_call_arguments (L : Libs) :
    TIMM_MODEL_NAME = "vit_tiny_patch16_224" ∧ N_CLASSES = 5 ∧
    (∀ nm n p, Event.createModelCall nm n p ∈ (runNotebook L).events →
      nm = TIMM_MODEL_NAME ∧ n = N_CLASSES ∧ p = true) ∧
    (∀ nm n m, Event.loadTimmModelCall nm n m ∈ (runNotebook L).events →
      nm = TIMM_MODEL_NAME ∧ n = N_CLASSES ∧
      L.timmCreateModel TIMM_MODEL_NAME N_CLASSES true = Except.ok m) := by
  refine ⟨rfl, rfl, ?_, ?_⟩
  · intro nm n p hmem
    rcases run_total L with ⟨hc, h⟩ | ⟨hc, h⟩ | ⟨hc, h⟩ | ⟨hc, h⟩ | ⟨hc, h⟩ | ⟨hc, h⟩ |
      ⟨e, hc, h⟩ | ⟨tm, e, h7, h⟩ | ⟨tm, km, e, h7, h8, h9, h⟩ |
      ⟨tm, km, tout, e, h7, h8, h9, h10, h⟩ |
      ⟨tm, km, tout, kout, h7, h8, h9, h10, h11, h⟩ |
      ⟨tm, km, tout, kout, h7, h8, h9, h10, h11, h12, h⟩ |
      ⟨tm, km, tout, kout, e, h7, h8, h9, h10, h13, h⟩ |
      ⟨tm, km, tout, kout, h7, h8, h9, h10, h⟩ <;>
      rw [h] at hmem <;>
      simp_all [haltImportOs, haltSetEnv, haltImportTimm, haltImportTfimm,
        haltImportTensorflow, haltImportTorch, haltCreate, haltConvert,
        haltForward, haltPredict, haltPrint1, haltPrint2, haltSave,
        successState, successEvents, initState]
  · intro nm n m hmem
    rcases run_total L with ⟨hc, h⟩ | ⟨hc, h⟩ | ⟨hc, h⟩ | ⟨hc, h⟩ | ⟨hc, h⟩ | ⟨hc, h⟩ |
      ⟨e, hc, h⟩ | ⟨tm, e, h7, h⟩ | ⟨tm, km, e, h7, h8, h9, h⟩ |
      ⟨tm, km, tout, e, h7, h8, h9, h10, h⟩ |
      ⟨tm, km, tout, kout, h7, h8, h9, h10, h11, h⟩ |
      ⟨tm, km, tout, kout, h7, h8, h9, h10, h11, h12, h⟩ |
      ⟨tm, km, tout, kout, e, h7, h8, h9, h10, h13, h⟩ |
      ⟨tm, km, tout, kout, h7, h8, h9, h10, h⟩ <;>
      rw [h] at hmem <;>
      simp_all [haltImportOs, haltSetEnv, haltImportTimm, haltImportTfimm,
        haltImportTensorflow, haltImportTorch, haltCreate, haltConvert,
        haltForward, haltPredict, haltPrint1, haltPrint2, haltSave,
        successState, successEvents, initState]

/-- Witness for C6: the create event recorded in the all-success concrete
transcript indeed carries the literal arguments. -/
theorem C6_call_arguments_witness :
    Event.createModelCall "vit_tiny_patch16_224" 5 true ∈ (runNotebook demoLibs).events ∧
    ("vit_tiny_patch16_224" = TIMM_MODEL_NAME ∧ 5 = N_CLASSES ∧ true = true) :=
  ⟨by decide, (C6_call_arguments demoLibs).2.2.1 "vit_tiny_patch16_224" 5 true (by decide)⟩

/-- Claim C10: between the conversion and the save no operation writes to
the model bindings: the testing step and the print step leave both the
timm model and the keras model unchanged in every state, and every model
recorded in a file write is exactly the still-bound keras model, which is
exactly the instance returned by the conversion call applied to the
instance returned by the create call. -/
theorem C10_saved_model_is_conversion_result (L : Libs) :
    (∀ s : NbState,
      (stepTesting L s).timm_model = s.timm_model ∧
      (stepTesting L s).keras_model = s.keras_model ∧
      (stepPrint L s).timm_model = s.timm_model ∧
      (stepPrint L s).keras_model = s.keras_model) ∧
    (∀ p f m, (p, f, m) ∈ (runNotebook L).fileWrites →
      (runNotebook L).keras_model = some m ∧
      ∃ tm, L.timmCreateModel TIMM_MODEL_NAME N_CLASSES true = Except.ok tm ∧
        L.tfimmLoadTimmModel TIMM_MODEL_NAME N_CLASSES tm = Except.ok m) := by
  constructor
  · intro s
    obtain ⟨ewf, evf, tmf, kmf, sif, kif, tof, kof, prf, fwf, haf⟩ := s
    refine ⟨?_, ?_, ?_, ?_⟩ <;>
      · simp only [stepTesting, stepPrint]
        repeat' split
        all_goals rfl
  · intro p f m hmem
    rcases run_total L with ⟨hc, h⟩ | ⟨hc, h⟩ | ⟨hc, h⟩ | ⟨hc, h⟩ | ⟨hc, h⟩ | ⟨hc, h⟩ |
      ⟨e, hc, h⟩ | ⟨tm, e, h7, h⟩ | ⟨tm, km, e, h7, h8, h9, h⟩ |
      ⟨tm, km, tout, e, h7, h8, h9, h10, h⟩ |
      ⟨tm, km, tout, kout, h7, h8, h9, h10, h11, h⟩ |
      ⟨tm, km, tout, kout, h7, h8, h9, h10, h11, h12, h⟩ |
      ⟨tm, km, tout, kout, e, h7, h8, h9, h10, h13, h⟩ |
      ⟨tm, km, tout, kout, h7, h8, h9, h10, h⟩ <;>
      rw [h] at hmem ⊢ <;>
      simp_all [haltImportOs, haltSetEnv, haltImportTimm, haltImportTfimm,
        haltImportTensorflow, haltImportTorch, haltCreate, haltConvert,
        haltForward, haltPredict, haltPrint1, haltPrint2, haltSave,
        successState, initState]

/-- Witness for C10: the file write of the all-success concrete transcript
records exactly the converted model. -/
theorem C10_saved_model_is_conversion_result_witness :
    (runNotebook demoLibs).keras_model = some demoKerasModel ∧
    ∃ tm, demoLibs.timmCreateModel TIMM_MODEL_NAME N_CLASSES true = Except.ok tm ∧
      demoLibs.tfimmLoadTimmModel TIMM_MODEL_NAME N_CLASSES tm = Except.ok demoKerasModel :=
  (C10_saved_model_is_conversion_result demoLibs).2
    ("keras_" ++ TIMM_MODEL_NAME) "tf" demoKerasModel (by decide)

/-- Claim C9: the environment variable TF_CPP_MIN_LOG_LEVEL is assigned
before tensorflow is imported: in any run whose events include the
tensorflow import, the event list starts with exactly the os import, the
environment-variable assignment, the timm and tfimm imports and then the
tensorflow import, and the tensorflow import occurs nowhere later — in
particular no tensorflow import precedes the assignment. -/
theorem C9_env_assigned_before_tensorflow_import (L : Libs)
    (hmem : Event.importLib "tensorflow" ∈ (runNotebook L).events) :
    ∃ rest, (runNotebook L).events =
      [Event.importLib "os", Event.setEnvVar "TF_CPP_MIN_LOG_LEVEL" "3",
       Event.importLib "timm", Event.importLib "tfimm",
       Event.importLib "tensorflow"] ++ rest ∧
      Event.importLib "tensorflow" ∉ rest := by
  rcases run_total L with ⟨hc, h⟩ | ⟨hc, h⟩ | ⟨hc, h⟩ | ⟨hc, h⟩ | ⟨hc, h⟩ | ⟨hc, h⟩ |
    ⟨e, hc, h⟩ | ⟨tm, e, h7, h⟩ | ⟨tm, km, e, h7, h8, h9, h⟩ |
    ⟨tm, km, tout, e, h7, h8, h9, h10, h⟩ |
    ⟨tm, km, tout, kout, h7, h8, h9, h10, h11, h⟩ |
    ⟨tm, km, tout, kout, h7, h8, h9, h10, h11, h12, h⟩ |
    ⟨tm, km, tout, kout, e, h7, h8, h9, h10, h13, h⟩ |
    ⟨tm, km, tout, kout, h7, h8, h9, h10, h⟩ <;> rw [h] at hmem ⊢
  · simp [haltImportOs, initState] at hmem
  · simp [haltSetEnv, initState] at hmem
  · simp [haltImportTimm, initState] at hmem
  · simp [haltImportTfimm, initState] at hmem
  · simp [haltImportTensorflow, initState] at hmem
  · exact ⟨[], rfl, by simp⟩
  · exact ⟨[Event.importLib "torch"], rfl, by simp⟩
  · exact ⟨[Event.importLib "torch",
      Event.createModelCall TIMM_MODEL_NAME N_CLASSES true], rfl, by simp⟩
  · exact ⟨[Event.importLib "torch",
      Event.createModelCall TIMM_MODEL_NAME N_CLASSES true,
      Event.loadTimmModelCall TIMM_MODEL_NAME N_CLASSES tm], rfl, by simp⟩
  · exact ⟨[Event.importLib "torch",
      Event.createModelCall TIMM_MODEL_NAME N_CLASSES true,
      Event.loadTimmModelCall TIMM_MODEL_NAME N_CLASSES tm,
      Event.torchForward], rfl, by simp⟩
  · exact ⟨[Event.importLib "torch",
      Event.createModelCall TIMM_MODEL_NAME N_CLASSES true,
      Event.loadTimmModelCall TIMM_MODEL_NAME N_CLASSES tm,
      Event.torchForward, Event.kerasPredict], rfl, by simp⟩
  · exact ⟨[Event.importLib "torch",
      Event.createModelCall TIMM_MODEL_NAME N_CLASSES true,
      Event.loadTimmModelCall TIMM_MODEL_NAME N_CLASSES tm,
      Event.torchForward, Event.kerasPredict,
      Event.printOutput tout], rfl, by simp⟩
  · exact ⟨[Event.importLib "torch",
      Event.createModelCall TIMM_MODEL_NAME N_CLASSES true,
      Event.loadTimmModelCall TIMM_MODEL_NAME N_CLASSES tm,
      Event.torchForward, Event.kerasPredict,
      Event.printOutput tout, Event.printOutput kout], rfl, by simp⟩
  · exact ⟨[Event.importLib "torch",
      Event.createModelCall TIMM_MODEL_NAME N_CLASSES true,
      Event.loadTimmModelCall TIMM_MODEL_NAME N_CLASSES tm,
      Event.torchForward, Event.kerasPredict,
      Event.printOutput tout, Event.printOutput kout,
      Event.saveModel ("keras_" ++ TIMM_MODEL_NAME) "tf" km], rfl, by simp⟩

/-- Witness for C9 at the all-success concrete transcript. -/
theorem C9_env_assigned_before_tensorflow_import_witness :
    Event.importLib "tensorflow" ∈ (runNotebook demoLibs).events ∧
    ∃ rest, (runNotebook demoLibs).events =
      [Event.importLib "os", Event.setEnvVar "TF_CPP_MIN_LOG_LEVEL" "3",
       Event.importLib "timm", Event.importLib "tfimm",
       Event.importLib "tensorflow"] ++ rest ∧
      Event.importLib "tensorflow" ∉ rest :=
  ⟨by decide, C9_env_assigned_before_tensorflow_import demoLibs (by decide)⟩

/-- Claim C3: the testing step only prints the two model outputs and the
program contains no assertion, tolerance or pass/fail comparison between
them: replacing the two inference results by arbitrary other values changes
neither the file writes, nor the halt status, nor which operations run
(the events up to printed payloads) — no predicate over the outputs
influences control flow or the saved artifact — and in a successful run the
printed values are exactly the torch output followed by the keras output. -/
theorem C3_outputs_influence_only_stdout (L : Libs) (t1 k1 t2 k2 : Output) :
    ((runNotebook (outputsOracle L t1 k1)).fileWrites =
       (runNotebook (outputsOracle L t2 k2)).fileWrites ∧
     (runNotebook (outputsOracle L t1 k1)).haltedAt =
       (runNotebook (outputsOracle L t2 k2)).haltedAt ∧
     (runNotebook (outputsOracle L t1 k1)).events.map eraseOutput =
       (runNotebook (outputsOracle L t2 k2)).events.map eraseOutput) ∧
    (∀ tm km tout kout,
      L.importOk "os" = true → L.setEnvOk = true → L.importOk "timm" = true →
      L.importOk "tfimm" = true → L.importOk "tensorflow" = true →
      L.importOk "torch" = true →
      L.timmCreateModel TIMM_MODEL_NAME N_CLASSES true = Except.ok tm →
      L.tfimmLoadTimmModel TIMM_MODEL_NAME N_CLASSES tm = Except.ok km →
      L.timmForward tm L.rand = Except.ok tout →
      L.kerasPredictFn km (permute0231 L.rand) = Except.ok kout →
      L.printOk1 = true → L.printOk2 = true →
      L.saveResult km ("keras_" ++ TIMM_MODEL_NAME) "tf" = none →
      (runNotebook L).printed = [tout, kout]) := by
  constructor
  · cases h1 : L.importOk "os" with
    | false =>
        rw [run_halt_import_os (outputsOracle L t1 k1) h1,
            run_halt_import_os (outputsOracle L t2 k2) h1]
        exact ⟨rfl, rfl, rfl⟩
    | true =>
      cases h2 : L.setEnvOk with
      | false =>
          rw [run_halt_setenv (outputsOracle L t1 k1) h1 h2,
              run_halt_setenv (outputsOracle L t2 k2) h1 h2]
          exact ⟨rfl, rfl, rfl⟩
      | true =>
        cases h3 : L.importOk "timm" with
        | false =>
            rw [run_halt_import_timm (outputsOracle L t1 k1) h1 h2 h3,
                run_halt_import_timm (outputsOracle L t2 k2) h1 h2 h3]
            exact ⟨rfl, rfl, rfl⟩
        | true =>
          cases h4 : L.importOk "tfimm" with
          | false =>
              rw [run_halt_import_tfimm (outputsOracle L t1 k1) h1 h2 h3 h4,
                  run_halt_import_tfimm (outputsOracle L t2 k2) h1 h2 h3 h4]
              exact ⟨rfl, rfl, rfl⟩
          | true =>
            cases h5 : L.importOk "tensorflow" with
            | false =>
                rw [run_halt_import_tensorflow (outputsOracle L t1 k1) h1 h2 h3 h4 h5,
                    run_halt_import_tensorflow (outputsOracle L t2 k2) h1 h2 h3 h4 h5]
                exact ⟨rfl, rfl, rfl⟩
            | true =>
              cases h6 : L.importOk "torch" with
              | false =>
                  rw [run_halt_import_torch (outputsOracle L t1 k1) h1 h2 h3 h4 h5 h6,
                      run_halt_import_torch (outputsOracle L t2 k2) h1 h2 h3 h4 h5 h6]
                  exact ⟨rfl, rfl, rfl⟩
              | true =>
                cases h7 : L.timmCreateModel TIMM_MODEL_NAME N_CLASSES true with
                | error e =>
                    rw [run_halt_create (outputsOracle L t1 k1) e h1 h2 h3 h4 h5 h6 h7,
                        run_halt_create (outputsOracle L t2 k2) e h1 h2 h3 h4 h5 h6 h7]
                    exact ⟨rfl, rfl, rfl⟩
                | ok tm =>
                  cases h8 : L.tfimmLoadTimmModel TIMM_MODEL_NAME N_CLASSES tm with
                  | error e =>
                      rw [run_halt_convert (outputsOracle L t1 k1) tm e
                            h1 h2 h3 h4 h5 h6 h7 h8,
                          run_halt_convert (outputsOracle L t2 k2) tm e
                            h1 h2 h3 h4 h5 h6 h7 h8]
                      exact ⟨rfl, rfl, rfl⟩
                  | ok km =>
                    cases h11 : L.printOk1 with
                    | false =>
                        rw [run_halt_print1 (outputsOracle L t1 k1) tm km t1 k1
                              h1 h2 h3 h4 h5 h6 h7 h8 rfl rfl h11,
                            run_halt_print1 (outputsOracle L t2 k2) tm km t2 k2
                              h1 h2 h3 h4 h5 h6 h7 h8 rfl rfl h11]
                        exact ⟨rfl, rfl, rfl⟩
                    | true =>
                      cases h12 : L.printOk2 with
                      | false =>
                          rw [run_halt_print2 (outputsOracle L t1 k1) tm km t1 k1
                                h1 h2 h3 h4 h5 h6 h7 h8 rfl rfl h11 h12,
                              run_halt_print2 (outputsOracle L t2 k2) tm km t2 k2
                                h1 h2 h3 h4 h5 h6 h7 h8 rfl rfl h11 h12]
                          exact ⟨rfl, rfl, rfl⟩
                      | true =>
                        cases h13 : L.saveResult km ("keras_" ++ TIMM_MODEL_NAME) "tf" with
                        | some e =>
                            rw [run_halt_save (outputsOracle L t1 k1) tm km t1 k1 e
                                  h1 h2 h3 h4 h5 h6 h7 h8 rfl rfl h11 h12 h13,
                                run_halt_save (outputsOracle L t2 k2) tm km t2 k2 e
                                  h1 h2 h3 h4 h5 h6 h7 h8 rfl rfl h11 h12 h13]
                            exact ⟨rfl, rfl, rfl⟩
                        | none =>
                            rw [run_success (outputsOracle L t1 k1) tm km t1 k1
                                  h1 h2 h3 h4 h5 h6 h7 h8 rfl rfl h11 h12 h13,
                                run_success (outputsOracle L t2 k2) tm km t2 k2
                                  h1 h2 h3 h4 h5 h6 h7 h8 rfl rfl h11 h12 h13]
                            exact ⟨rfl, rfl, rfl⟩
  · intro tm km tout kout h1 h2 h3 h4 h5 h6 h7 h8 h9 h10 h11 h12 h13
    rw [run_success L tm km tout kout h1 h2 h3 h4 h5 h6 h7 h8 h9 h10 h11 h12 h13]
    rfl

/-- Witness for C3 at the all-success concrete transcript: the printed
values are exactly the two inference results. -/
theorem C3_outputs_influence_only_stdout_witness :
    (runNotebook demoLibs).printed = [[1, 2], [3, 4]] :=
  (C3_outputs_influence_only_stdout demoLibs [] [] [] []).2 demoTimmModel demoKerasModel
    [1, 2] [3, 4] rfl rfl rfl rfl rfl rfl rfl rfl rfl rfl rfl rfl rfl

/-- Witness for C4 at the concrete path equality. -/
theorem C4_save_path_and_format_witness :
    "keras_" ++ TIMM_MODEL_NAME = "keras_vit_tiny_patch16_224" :=
  (C4_save_path_and_format demoLibs).2

/-- Witness for C8: the upload target of the publish step is the test
registry. -/
theorem C8_publish_manual_and_test_registry_only_witness :
    uploadUrl publish_test_workflow = some "https://test.pypi.org/legacy/" :=
  C8_publish_manual_and_test_registry_only.2.2.2.2.1

end TFIMM
